import Mathlib

/-!
Shallow embedding of the rf2-replay-reader VCR decoder (src/utils.py,
src/events.py, src/replay.py) and verification of its specification.

Modelling conventions:
* A Python binary file / BytesIO object is a `ByteStream`: an immutable byte
  list together with a read position.  `ByteStream.read n` returns the next
  `n` bytes (fewer when fewer remain, exactly like Python's `read`) and the
  advanced stream.
* Bytes are `Nat`s (in intended use each element is < 256); `bytesToNatLE`
  is `int.from_bytes(_, byteorder="little")`.  All call sites in the source
  use `signed=False`, so only the unsigned conversion is modelled.
* Python floats produced by `read_float` are exact (`float(value)` of an
  integer below 2^32 is exact in IEEE-754 double precision), so they are
  modelled as rationals.  `read_float2` (struct.unpack of an IEEE-754
  binary32) is modelled by the raw 32-bit pattern `Float32`, with
  `Float32.valQ` giving the represented value as a rational (`none` for the
  exponent-255 patterns, i.e. infinities and NaNs).
* `read_string` is modelled up to UTF-8 decoding: it returns the
  NUL-truncated raw bytes that Python would pass to `.decode("utf-8")`.
* Python exceptions (the `raise ValueError` for an unknown session type,
  `struct.error` for a short `struct.unpack` buffer) are modelled with
  `Option`: `none` is the raised exception.
-/

namespace RF2

/-- A byte buffer with a current read position (Python file / BytesIO). -/
structure ByteStream where
  data : List Nat
  pos : Nat
deriving DecidableEq

/-- `file.read(n)`: return up to `n` bytes from the current position and
advance the position by the number of bytes actually returned.  Like
Python's `read`, this never fails: past the end it returns fewer bytes. -/
def ByteStream.read (s : ByteStream) (n : Nat) : List Nat × ByteStream :=
  let bs := (s.data.drop s.pos).take n
  (bs, ⟨s.data, s.pos + bs.length⟩)

/-- `file.seek(p)`. -/
def ByteStream.seek (s : ByteStream) (p : Nat) : ByteStream :=
  ⟨s.data, p⟩

/-- `int.from_bytes(bs, byteorder="little")`. -/
def bytesToNatLE (bs : List Nat) : Nat :=
  bs.foldr (fun b acc => b + 256 * acc) 0

/-- `utils.read_integer` (unsigned, as at every call site). -/
def read_integer (file : ByteStream) (size : Nat) : Nat × ByteStream :=
  let r := file.read size
  (bytesToNatLE r.1, r.2)

/-- `utils.read_float`: reads a little-endian integer and converts its
numeric value to a float (the "legacy" float path). -/
def read_float (file : ByteStream) (size : Nat) : ℚ × ByteStream :=
  let r := file.read size
  ((bytesToNatLE r.1 : ℚ), r.2)

/-- An IEEE-754 binary32 value, represented by its 32-bit pattern. -/
structure Float32 where
  bits : Nat
deriving DecidableEq

/-- The rational value represented by an IEEE-754 binary32 bit pattern
(`none` for exponent 255, i.e. infinities and NaNs).  A subnormal
(exponent 0) is `±m·2^(-149)` and a normal is `±(2^23+m)·2^(e-127-23)`,
both written as integer quotients with denominator `2^149` / `2^150` so
the definition evaluates inside `decide`. -/
def Float32.valQ (f : Float32) : Option ℚ :=
  let sgn := (f.bits >>> 31) &&& 1
  let e := (f.bits >>> 23) &&& 0xFF
  let m := f.bits &&& 0x7FFFFF
  if e = 255 then none
  else if e = 0 then
    some (Rat.divInt ((if sgn = 1 then (-1 : Int) else 1) * (m : Int))
      ((2 ^ 149 : Nat) : Int))
  else
    some (Rat.divInt ((if sgn = 1 then (-1 : Int) else 1) * (((2 ^ 23 + m) * 2 ^ e : Nat) : Int))
      ((2 ^ 150 : Nat) : Int))

/-- `utils.read_float2`: `struct.unpack('<f', data)[0]`, i.e. the 4 bytes
reinterpreted as an IEEE-754 little-endian binary32.  `struct.unpack`
raises (`none`) unless exactly 4 bytes were obtained. -/
def read_float2 (file : ByteStream) (size : Nat) : Option Float32 × ByteStream :=
  let r := file.read size
  (if r.1.length = 4 then some ⟨bytesToNatLE r.1⟩ else none, r.2)

/-- `raw_bytes[:raw_bytes.find(b'\x00')]` when a NUL is present. -/
def truncateAtNul (raw_bytes : List Nat) : List Nat :=
  match raw_bytes.findIdx? (· == 0) with
  | some i => raw_bytes.take i
  | none => raw_bytes

/-- `utils.read_string` up to UTF-8 decoding: reads a length prefix of
`descriptor_length` bytes, then that many bytes, NUL-truncated. -/
def read_string (file : ByteStream) (descriptor_length : Nat) : List Nat × ByteStream :=
  let rp := file.read descriptor_length
  let size := bytesToNatLE rp.1
  let rb := rp.2.read size
  (truncateAtNul rb.1, rb.2)

/-- `utils.read_bytes`. -/
def read_bytes (file : ByteStream) (size : Nat) : List Nat × ByteStream :=
  file.read size

/-- `utils.read_bytes_as_string` up to UTF-8 decoding. -/
def read_bytes_as_string (file : ByteStream) (size : Nat) : List Nat × ByteStream :=
  let r := file.read size
  (truncateAtNul r.1, r.2)

/-- The common fields of `events.ReplayEvent` as produced by
`Replay.events` (the `data` member holds the event payload bytes). -/
structure EventRec where
  event_class : Nat
  event_type : Nat
  time : ℚ
  driver : Option Nat
  size : Nat
  data : List Nat
deriving DecidableEq

/-- The fields computed by `events.TelemetryEvent.__post_init__`. -/
structure TelemetryData where
  gear : Int
  steer_yaw : Nat
  throttle : Nat
  engine_rpm : Nat
  in_pit : Bool
  horn : Bool
  acceleration : Nat
  following : Bool
  warning_light : Bool
  driver_visible : Bool
  head_light : Bool
  current_driver : Nat
  dpart_debris11 : Bool
  dpart_debris10 : Bool
  dpart_debris9 : Bool
  dpart_debris8 : Bool
  dpart_debris7 : Bool
  dpart_debris6 : Bool
  dpart_debris5 : Bool
  dpart_debris4 : Bool
  dpart_debris3 : Bool
  dpart_debris2 : Bool
  dpart_debris1 : Bool
  dpart_debris0 : Bool
  dpart_rwing : Bool
  dpart_fwing : Bool
  dpart_rr : Bool
  dpart_rl : Bool
  dpart_fr : Bool
  dpart_fl : Bool
  tc_level : Nat
  brakes : Nat
  pos_x : Float32
  pos_y : Float32
  pos_z : Float32
  rot_x : Float32
  rot_y : Float32
  rot_z : Float32
deriving DecidableEq

/-- `events.TelemetryEvent.__post_init__`: decode the telemetry payload.
`none` models the `struct.error` a short position/rotation float read
raises (the only fallible step). -/
def decodeTelemetry (event_type : Nat) (data : ByteStream) : Option TelemetryData × ByteStream :=
  let gear : Int := (event_type : Int) - 8
  let r1 := read_integer data 4
  let info1 := r1.1
  let r2 := read_integer r1.2 4
  let info2 := r2.1
  let r3 := read_integer r2.2 5
  let r4 := r3.2.read 25
  let r5 := read_integer r4.2 1
  let tc_brakes := r5.1
  let r6 := read_float2 r5.2 4
  let r7 := read_float2 r6.2 4
  let r8 := read_float2 r7.2 4
  let r9 := read_float2 r8.2 4
  let r10 := read_float2 r9.2 4
  let r11 := read_float2 r10.2 4
  match r6.1, r7.1, r8.1, r9.1, r10.1, r11.1 with
  | some px, some py, some pz, some rx, some ry, some rz =>
    (some {
      gear := gear
      steer_yaw := info1 &&& 127
      throttle := (info1 >>> 11) &&& 63
      engine_rpm := info1 >>> 18
      in_pit := ((info1 >>> 17) &&& 0x1) != 0
      horn := ((info1 >>> 10) &&& 0x1) != 0
      acceleration := (info2 >>> 24) &&& 0xFF
      following := ((info2 >>> 23) &&& 0x1) != 0
      warning_light := ((info2 >>> 22) &&& 0x1) != 0
      driver_visible := ((info2 >>> 21) &&& 0x1) != 0
      head_light := ((info2 >>> 20) &&& 0x1) != 0
      current_driver := (info2 >>> 18) &&& 0x03
      dpart_debris11 := ((info2 >>> 7) &&& 0x1) != 0
      dpart_debris10 := ((info2 >>> 6) &&& 0x1) != 0
      dpart_debris9 := ((info2 >>> 5) &&& 0x1) != 0
      dpart_debris8 := ((info2 >>> 4) &&& 0x1) != 0
      dpart_debris7 := ((info2 >>> 3) &&& 0x1) != 0
      dpart_debris6 := ((info2 >>> 2) &&& 0x1) != 0
      dpart_debris5 := ((info2 >>> 1) &&& 0x1) != 0
      dpart_debris4 := ((info2 >>> 0) &&& 0x1) != 0
      dpart_debris3 := ((info2 >>> 31) &&& 0x1) != 0
      dpart_debris2 := ((info2 >>> 30) &&& 0x1) != 0
      dpart_debris1 := ((info2 >>> 29) &&& 0x1) != 0
      dpart_debris0 := ((info2 >>> 28) &&& 0x1) != 0
      dpart_rwing := ((info2 >>> 27) &&& 0x1) != 0
      dpart_fwing := ((info2 >>> 26) &&& 0x1) != 0
      dpart_rr := ((info2 >>> 25) &&& 0x1) != 0
      dpart_rl := ((info2 >>> 24) &&& 0x1) != 0
      dpart_fr := ((info2 >>> 23) &&& 0x1) != 0
      dpart_fl := ((info2 >>> 22) &&& 0x1) != 0
      tc_level := tc_brakes >>> 6
      brakes := tc_brakes &&& 0x3F
      pos_x := px
      pos_y := py
      pos_z := pz
      rot_x := rx
      rot_y := ry
      rot_z := rz }, r11.2)
  | _, _, _, _, _, _ => (none, r11.2)

/-- `events.LightEvent.__post_init__`. -/
def decodeLight (data : ByteStream) : Nat × ByteStream :=
  read_integer data 1

/-- `events.GarageEvent.__post_init__`. -/
def decodeGarage (data : ByteStream) : ℚ × ByteStream :=
  read_float data 4

/-- The fields computed by `events.CheckpointEvent.__post_init__`. -/
structure CheckpointData where
  lap_or_sector_time : ℚ
  timestamp : ℚ
  lap : Nat
  sector : Nat
deriving DecidableEq

/-- `events.CheckpointEvent.__post_init__`. -/
def decodeCheckpoint (data : ByteStream) : CheckpointData × ByteStream :=
  let r1 := read_float data 4
  let r2 := read_float r1.2 4
  let r3 := read_integer r2.2 1
  let r4 := read_integer r3.2 1
  ({ lap_or_sector_time := r1.1, timestamp := r2.1, lap := r3.1,
     sector := (r4.1 >>> 6) &&& 3 }, r4.2)

/-- `events.PitLaneEvent.__post_init__`. -/
def decodePitLane (data : ByteStream) : Nat × ByteStream :=
  read_integer data 1

/-- `events.OvertakeEvent.__post_init__`. -/
def decodeOvertake (size : Nat) (data : ByteStream) : List Nat × ByteStream :=
  let r := data.read 21
  read_bytes r.2 (size - 21)

/-- The event classes of `events.py` that `_EVENT_TYPES` can name. -/
inductive EventKind where
  | telemetry
  | light
  | garage
  | checkpoint
  | pitLane
  | overtake
  | unknown
deriving DecidableEq

/-- `replay._EVENT_TYPES`: the static dispatch dictionary. -/
def _EVENT_TYPES : List ((Nat × Nat) × EventKind) :=
  [((0, 7), .telemetry),
   ((0, 8), .telemetry),
   ((0, 9), .telemetry),
   ((0, 10), .telemetry),
   ((0, 11), .telemetry),
   ((0, 12), .telemetry),
   ((0, 13), .telemetry),
   ((0, 14), .telemetry),
   ((0, 15), .telemetry),
   ((0, 16), .telemetry),
   ((1, 10), .light),
   ((1, 7), .garage),
   ((3, 6), .checkpoint),
   ((5, 2), .pitLane),
   ((3, 48), .overtake)]

/-- `_EVENT_TYPES.get((event_class, event_type), events.UnknownEvent)`. -/
def eventTypesGet (key : Nat × Nat) : EventKind :=
  match _EVENT_TYPES.lookup key with
  | some k => k
  | none => .unknown

/-- A fully decoded event: the tagged union over the `events.py` classes. -/
inductive DecodedEvent where
  | unknown (e : EventRec)
  | light (e : EventRec) (light_state : Nat)
  | garage (e : EventRec) (timestamp : ℚ)
  | checkpoint (e : EventRec) (c : CheckpointData)
  | pitLane (e : EventRec) (action : Nat)
  | overtake (e : EventRec) (standings : List Nat)
  | telemetry (e : EventRec) (t : TelemetryData)
deriving DecidableEq

/-- Constructing the event object chosen by the dispatch table: each
`__post_init__` reads from a fresh `BytesIO` over the payload bytes.
`none` models an exception escaping the construction (only telemetry's
`struct.error` can occur). -/
def buildEvent (e : EventRec) : Option DecodedEvent :=
  match eventTypesGet (e.event_class, e.event_type) with
  | .unknown => some (.unknown e)
  | .light => some (.light e (decodeLight ⟨e.data, 0⟩).1)
  | .garage => some (.garage e (decodeGarage ⟨e.data, 0⟩).1)
  | .checkpoint => some (.checkpoint e (decodeCheckpoint ⟨e.data, 0⟩).1)
  | .pitLane => some (.pitLane e (decodePitLane ⟨e.data, 0⟩).1)
  | .overtake => some (.overtake e (decodeOvertake e.size ⟨e.data, 0⟩).1)
  | .telemetry => ((decodeTelemetry e.event_type ⟨e.data, 0⟩).1).map (fun t => .telemetry e t)

/-- `event_size = (event_header >> 8) & 0x1ff` (replay.py line 97). -/
def event_size_of (event_header : Nat) : Nat :=
  (event_header >>> 8) &&& 0x1ff

/-- `event_class = event_header >> 29` (replay.py line 98). -/
def event_class_of (event_header : Nat) : Nat :=
  event_header >>> 29

/-- `event_type = (event_header >> 17) & 0x03f` (replay.py line 99). -/
def event_type_of (event_header : Nat) : Nat :=
  (event_header >>> 17) &&& 0x03f

/-- `driver_id = event_header & 0x0ff` (replay.py line 100). -/
def driver_id_of (event_header : Nat) : Nat :=
  event_header &&& 0x0ff

/-- One iteration of the inner loop of `Replay.events` (replay.py lines
96-104): read the packed header, skip one unknown byte, read the payload,
and build the common event record. -/
def readEvent (slice_time : ℚ) (s : ByteStream) : EventRec × ByteStream :=
  let rh := read_integer s 4
  let event_header := rh.1
  let event_size := event_size_of event_header
  let event_class := event_class_of event_header
  let event_type := event_type_of event_header
  let driver_id := driver_id_of event_header
  let ru := rh.2.read 1
  let rd := ru.2.read event_size
  ({ event_class := event_class, event_type := event_type, time := slice_time,
     driver := if driver_id != 255 then some driver_id else none,
     size := event_size, data := rd.1 }, rd.2)

/-- `replay.SessionType`. -/
inductive SessionType where
  | TEST_DAY
  | PRACTICE
  | QUALIFYING
  | WARMUP
  | RACE
deriving DecidableEq

/-- `Replay._read_session_info`; `none` models the raised
`ValueError("Unknown session type: ...")`. -/
def _read_session_info (s : ByteStream) : Option ((SessionType × Bool) × ByteStream) :=
  let r := read_integer s 1
  let session_info := r.1
  let session_type_number := session_info &&& 0xF
  let st :=
    if session_type_number = 0 then some SessionType.TEST_DAY
    else if 1 ≤ session_type_number ∧ session_type_number ≤ 4 then some SessionType.PRACTICE
    else if 5 ≤ session_type_number ∧ session_type_number ≤ 8 then some SessionType.QUALIFYING
    else if session_type_number = 9 then some SessionType.WARMUP
    else if 10 ≤ session_type_number ∧ session_type_number ≤ 13 then some SessionType.RACE
    else none
  match st with
  | none => none
  | some session_type =>
    some ((session_type, ((session_info >>> 7) &&& 1) == 1), r.2)

/-- `replay.ReplayInfo` (strings kept as their raw NUL-truncated bytes,
`version` as the raw 4 bytes, per the source). -/
structure ReplayInfo where
  version : List Nat
  rfm : List Nat
  mod_info : List Nat
  slice_count : Nat
  event_count_total : Nat
  time_start : ℚ
  time_end : ℚ
  scn_filename : List Nat
  aiw_filename : List Nat
  mod_name : List Nat
  mod_version : List Nat
  mod_uid : List Nat
  track_path : List Nat
  session_type : SessionType
  is_private_session : Bool
deriving DecidableEq

/-- `bytes.find`: first index of `b`, or `-1`. -/
def bytesFind (l : List Nat) (b : Nat) : Int :=
  match l.findIdx? (· == b) with
  | some i => (i : Int)
  | none => -1

/-- `Replay._read_replay_info` (replay.py lines 116-150): locate the
header start at one past the first 0x0A in the bytes from the current
position, and decode the fixed header layout.  `none` propagates the
unknown-session-type error. -/
def _read_replay_info (s : ByteStream) : Option (ReplayInfo × ByteStream) :=
  let rall := s.read (s.data.length - s.pos)
  let header := bytesFind rall.1 0x0A + 1
  let s1 := s.seek header.toNat
  let rt := s1.read 4
  let rv := rt.2.read 4
  let version := rv.1
  let r_rfm := read_string rv.2 4
  let ru := r_rfm.2.read 4
  let r_mi := read_string ru.2 4
  let r_scn := read_string r_mi.2 4
  let r_aiw := read_string r_scn.2 4
  let r_mn := read_string r_aiw.2 2
  let r_mv := read_string r_mn.2 2
  let r_mu := read_string r_mv.2 2
  let r_tp := read_string r_mu.2 2
  let r1 := r_tp.2.read 1
  match _read_session_info r1.2 with
  | none => none
  | some ((session_type, is_private_session), s2) =>
    let r67 := s2.read 67
    some ({ version := version, rfm := r_rfm.1, mod_info := r_mi.1,
            slice_count := 0, event_count_total := 0,
            time_start := 0, time_end := 0,
            scn_filename := r_scn.1, aiw_filename := r_aiw.1,
            mod_name := r_mn.1, mod_version := r_mv.1, mod_uid := r_mu.1,
            track_path := r_tp.1, session_type := session_type,
            is_private_session := is_private_session }, r67.2)

/-- `Replay._read_slices_header` (replay.py lines 199-203): read the
trailing summary header and assign the four summary fields of `info`. -/
def _read_slices_header (info : ReplayInfo) (s : ByteStream) : ReplayInfo × ByteStream :=
  let r1 := read_integer s 4
  let r2 := read_integer r1.2 4
  let r3 := read_float r2.2 4
  let r4 := read_float r3.2 4
  ({ info with slice_count := r1.1, event_count_total := r2.1,
               time_start := r3.1, time_end := r4.1 }, r4.2)

/-- The state a `Replay` object carries while iterating `events`. -/
structure ReplayState where
  info : ReplayInfo
  vcr_file : ByteStream
deriving DecidableEq

/-- The inner loop of `Replay.events`: read `n` events of one slice. -/
def readSliceEvents (slice_time : ℚ) : Nat → ByteStream → List EventRec × ByteStream
  | 0, s => ([], s)
  | n + 1, s =>
    let re := readEvent slice_time s
    let rest := readSliceEvents slice_time n re.2
    (re.1 :: rest.1, rest.2)

/-- The outer loop of `Replay.events`: walk `n` slices, each headed by a
legacy-float timestamp and a 2-byte event count. -/
def readSlices : Nat → ByteStream → List EventRec × ByteStream
  | 0, s => ([], s)
  | n + 1, s =>
    let rt := read_float s 4
    let rc := read_integer rt.2 2
    let res := readSliceEvents rt.1 rc.1 rc.2
    let rest := readSlices n res.2
    (res.1 ++ rest.1, rest.2)

/-- `Replay.events`: the full lazy event sequence, materialised.  It reads
only from the file cursor; the `info` member is passed through. -/
def events (r : ReplayState) : List EventRec × ReplayState :=
  let res := readSlices r.info.slice_count r.vcr_file
  (res.1, { info := r.info, vcr_file := res.2 })

/-! ### Helper lemmas -/

/-- Reading `n` bytes when at least `n` remain returns exactly `n` bytes
and advances the position by `n`. -/
theorem ByteStream.read_of_le (s : ByteStream) (n : Nat) (h : s.pos + n ≤ s.data.length) :
    s.read n = ((s.data.drop s.pos).take n, ⟨s.data, s.pos + n⟩) := by
  unfold ByteStream.read
  have hl : ((s.data.drop s.pos).take n).length = n := by
    simp only [List.length_take, List.length_drop]
    omega
  simp [hl]

/-- Reading `n` bytes when at most `n` remain returns all remaining bytes
and moves the position to the end. -/
theorem ByteStream.read_of_ge (s : ByteStream) (n : Nat) (h1 : s.pos ≤ s.data.length)
    (h2 : s.data.length ≤ s.pos + n) :
    s.read n = (s.data.drop s.pos, ⟨s.data, s.data.length⟩) := by
  have ht : (s.data.drop s.pos).take n = s.data.drop s.pos :=
    List.take_of_length_le (by simp only [List.length_drop]; omega)
  have hp : s.pos + (s.data.drop s.pos).length = s.data.length := by
    simp only [List.length_drop]
    omega
  simp only [ByteStream.read]
  rw [ht, hp]

/-- Component form of `read_of_le` for the returned bytes. -/
theorem ByteStream.read_fst_of_le (s : ByteStream) (n : Nat) (h : s.pos + n ≤ s.data.length) :
    (s.read n).1 = (s.data.drop s.pos).take n := by
  rw [ByteStream.read_of_le s n h]

/-- Component form of `read_of_le` for the advanced stream. -/
theorem ByteStream.read_snd_of_le (s : ByteStream) (n : Nat) (h : s.pos + n ≤ s.data.length) :
    (s.read n).2 = ⟨s.data, s.pos + n⟩ := by
  rw [ByteStream.read_of_le s n h]

/-- Component form of `read_of_ge` for the returned bytes. -/
theorem ByteStream.read_fst_of_ge (s : ByteStream) (n : Nat) (h1 : s.pos ≤ s.data.length)
    (h2 : s.data.length ≤ s.pos + n) :
    (s.read n).1 = s.data.drop s.pos := by
  rw [ByteStream.read_of_ge s n h1 h2]

/-- Component form of `read_of_ge` for the advanced stream. -/
theorem ByteStream.read_snd_of_ge (s : ByteStream) (n : Nat) (h1 : s.pos ≤ s.data.length)
    (h2 : s.data.length ≤ s.pos + n) :
    (s.read n).2 = ⟨s.data, s.data.length⟩ := by
  rw [ByteStream.read_of_ge s n h1 h2]

/-- A successful association-list lookup pinpoints a member of the list. -/
theorem lookup_some_mem {α β : Type} [BEq α] [LawfulBEq α] (a : α) (v : β) :
    ∀ l : List (α × β), l.lookup a = some v → (a, v) ∈ l := by
  intro l
  induction l with
  | nil => intro h; simp [List.lookup] at h
  | cons p l ih =>
    intro h
    rcases p with ⟨k, b⟩
    rw [List.lookup] at h
    by_cases hk : (a == k) = true
    · rw [hk] at h
      simp only [Option.some.injEq] at h
      rw [eq_of_beq hk, h]
      exact List.mem_cons_self _ _
    · rw [Bool.not_eq_true] at hk
      rw [hk] at h
      exact List.mem_cons_of_mem _ (ih h)

/-- The dispatch table maps `(c, t)` to the telemetry decoder exactly for
class 0 and type between 7 and 16. -/
theorem eventTypesGet_telemetry_iff (c t : Nat) :
    eventTypesGet (c, t) = EventKind.telemetry ↔ c = 0 ∧ 7 ≤ t ∧ t ≤ 16 := by
  constructor
  · intro h
    have hl : _EVENT_TYPES.lookup (c, t) = some EventKind.telemetry := by
      unfold eventTypesGet at h
      rcases hx : _EVENT_TYPES.lookup (c, t) with _ | k
      · rw [hx] at h; simp at h
      · rw [hx] at h
        have hk : k = EventKind.telemetry := h
        rw [hk]
    have hm := lookup_some_mem (c, t) EventKind.telemetry _EVENT_TYPES hl
    simp [_EVENT_TYPES, Prod.mk.injEq] at hm
    omega
  · rintro ⟨rfl, h7, h16⟩
    interval_cases t <;> decide

/-- Modelled from the spec: the packed 32-bit event header word with the
driver id in bits 0-7, the size in bits 8-16, the type in bits 17-22 and
the class in bits 29-31 (the packing direction does not occur in the
source, which only unpacks). -/
def pack_header (eclass etype esize edriver : Nat) : Nat :=
  edriver + esize * 2 ^ 8 + etype * 2 ^ 17 + eclass * 2 ^ 29

/-! ### Claims -/

/-- Claim C2: for every class in [0,7], type in [0,63], size in [0,511]
and driver in [0,255], packing the fields into a 32-bit header word
(driver in bits 0-7, size in bits 8-16, type in bits 17-22, class in bits
29-31) and unpacking with the source's shift/mask expressions
(`replay.py` lines 97-100) yields back exactly the packed fields. -/
theorem C2_header_pack_unpack (c t sz d : Nat)
    (_hc : c ≤ 7) (ht : t ≤ 63) (hs : sz ≤ 511) (hd : d ≤ 255) :
    event_class_of (pack_header c t sz d) = c ∧
    event_type_of (pack_header c t sz d) = t ∧
    event_size_of (pack_header c t sz d) = sz ∧
    driver_id_of (pack_header c t sz d) = d := by
  have e9 : (0x1ff : Nat) = 2 ^ 9 - 1 := by norm_num
  have e6 : (0x03f : Nat) = 2 ^ 6 - 1 := by norm_num
  have e8 : (0x0ff : Nat) = 2 ^ 8 - 1 := by norm_num
  unfold event_class_of event_type_of event_size_of driver_id_of pack_header
  rw [e9, e6, e8, Nat.and_pow_two_sub_one_eq_mod, Nat.and_pow_two_sub_one_eq_mod,
    Nat.and_pow_two_sub_one_eq_mod, Nat.shiftRight_eq_div_pow, Nat.shiftRight_eq_div_pow,
    Nat.shiftRight_eq_div_pow]
  norm_num
  refine ⟨?_, ?_, ?_, ?_⟩ <;> omega

/-- Witness for C2 at class 5, type 20, size 300, driver 42. -/
theorem C2_header_pack_unpack_wit :
    event_class_of (pack_header 5 20 300 42) = 5 ∧
    event_type_of (pack_header 5 20 300 42) = 20 ∧
    event_size_of (pack_header 5 20 300 42) = 300 ∧
    driver_id_of (pack_header 5 20 300 42) = 42 :=
  C2_header_pack_unpack 5 20 300 42 (by decide) (by decide) (by decide) (by decide)

/-- Claim C4: decoding the 1-byte session-info field maps its low nibble
to a session type by the ranges 0 → TestDay, 1-4 → Practice, 5-8 →
Qualifying, 9 → Warmup, 10-13 → Race, reads the private-session flag from
bit 7, and fails with the unknown-session-type error exactly when the
nibble is 14 or 15; byte 0x00 gives TestDay/non-private and byte 0x8A
gives Race/private. -/
theorem C4_session_info (s : ByteStream) (b : Nat) (hb : b = (read_integer s 1).1) :
    (_read_session_info s = none ↔ (b &&& 0xF = 14 ∨ b &&& 0xF = 15)) ∧
    (∀ st pv s', _read_session_info s = some ((st, pv), s') →
      pv = (((b >>> 7) &&& 1) == 1) ∧
      (b &&& 0xF = 0 → st = SessionType.TEST_DAY) ∧
      (1 ≤ b &&& 0xF ∧ b &&& 0xF ≤ 4 → st = SessionType.PRACTICE) ∧
      (5 ≤ b &&& 0xF ∧ b &&& 0xF ≤ 8 → st = SessionType.QUALIFYING) ∧
      (b &&& 0xF = 9 → st = SessionType.WARMUP) ∧
      (10 ≤ b &&& 0xF ∧ b &&& 0xF ≤ 13 → st = SessionType.RACE)) ∧
    _read_session_info ⟨[0x00], 0⟩ = some ((SessionType.TEST_DAY, false), ⟨[0x00], 1⟩) ∧
    _read_session_info ⟨[0x8A], 0⟩ = some ((SessionType.RACE, true), ⟨[0x8A], 1⟩) := by
  subst hb
  refine ⟨?_, ?_, by decide, by decide⟩
  · have hle : (read_integer s 1).1 &&& 0xF ≤ 0xF := Nat.and_le_right
    simp only [_read_session_info]
    split_ifs with h0 h1 h2 h3 h4 <;> simp <;> omega
  · simp only [_read_session_info]
    split_ifs with h0 h1 h2 h3 h4 <;> intro st pv s' h <;>
      simp only [Option.some.injEq, Prod.mk.injEq, reduceCtorEq, false_and] at h <;>
      obtain ⟨⟨hst, hpv⟩, hs'⟩ := h <;>
      subst hst <;> subst hpv <;>
      refine ⟨rfl, ?_, ?_, ?_, ?_, ?_⟩ <;> intro hx <;>
      first
        | rfl
        | (exfalso; omega)

/-- Witness for C4: nibble 14 fails; byte 0x00 decodes to
TestDay/non-private. -/
theorem C4_session_info_wit :
    _read_session_info ⟨[0x0E], 0⟩ = none ∧
    _read_session_info ⟨[0x00], 0⟩ = some ((SessionType.TEST_DAY, false), ⟨[0x00], 1⟩) :=
  ⟨(C4_session_info ⟨[0x0E], 0⟩ 0x0E (by decide)).1.mpr (by decide),
   (C4_session_info ⟨[0x0E], 0⟩ 0x0E (by decide)).2.2.1⟩

/-- Claim C6: an event produced by the stream decoder has `driver = none`
exactly when the raw driver byte of the packed header is 255, carries the
raw value itself for 0-254, and never carries the literal 255. -/
theorem C6_driver_option (slice_time : ℚ) (s : ByteStream) :
    ((readEvent slice_time s).1.driver = none ↔
      driver_id_of (read_integer s 4).1 = 255) ∧
    (∀ d, (readEvent slice_time s).1.driver = some d →
      d = driver_id_of (read_integer s 4).1 ∧ d ≠ 255) := by
  by_cases h : driver_id_of (read_integer s 4).1 = 255 <;>
    simp [readEvent, h]

/-- Witness for C6: header bytes FF 00 00 00 give driver byte 255 hence
`none`; header bytes 07 00 00 00 give driver 7. -/
theorem C6_driver_option_wit :
    (readEvent 0 ⟨[255, 0, 0, 0, 9], 0⟩).1.driver = none ∧
    (7 = driver_id_of (read_integer (⟨[7, 0, 0, 0, 9], 0⟩ : ByteStream) 4).1 ∧ 7 ≠ 255) :=
  ⟨(C6_driver_option 0 ⟨[255, 0, 0, 0, 9], 0⟩).1.mpr (by decide),
   (C6_driver_option 0 ⟨[7, 0, 0, 0, 9], 0⟩).2 7 (by decide)⟩

/-- Claim C7: the legacy float reader (used for header, driver,
checkpoint, garage and slice timestamps) returns the numeric value of the
little-endian unsigned integer formed by its bytes, while `read_float2`
(used only for the six telemetry position/rotation fields) reinterprets
the 4 bytes as an IEEE-754 little-endian binary32 bit pattern; on the
bytes 00 00 80 3F the legacy reader yields 1065353216 whereas the IEEE
reader yields the value 1, so the two disagree. -/
theorem C7_float_readers :
    (∀ (s : ByteStream) (n : Nat), (read_float s n).1 = ((read_integer s n).1 : ℚ)) ∧
    (read_float ⟨[0, 0, 128, 63], 0⟩ 4).1 = (1065353216 : ℚ) ∧
    (read_float2 ⟨[0, 0, 128, 63], 0⟩ 4).1 = some ⟨1065353216⟩ ∧
    Float32.valQ ⟨1065353216⟩ = some 1 ∧
    (1065353216 : ℚ) ≠ (1 : ℚ) :=
  ⟨fun _ _ => rfl, by decide, by decide, by decide, by decide⟩

/-- Claim C8: a (class, type) pair absent from the static dispatch table
routes to the Unknown decoder, constructing the event never fails, and
the event keeps its full size-byte payload verbatim (when that many bytes
remain in the stream). -/
theorem C8_unknown_fallback (c t : Nat)
    (h : _EVENT_TYPES.lookup (c, t) = none) :
    eventTypesGet (c, t) = EventKind.unknown ∧
    (∀ e : EventRec, e.event_class = c → e.event_type = t →
      buildEvent e = some (DecodedEvent.unknown e)) ∧
    (∀ (slice_time : ℚ) (s : ByteStream),
      s.pos + 5 + event_size_of (read_integer s 4).1 ≤ s.data.length →
      (readEvent slice_time s).1.size = event_size_of (read_integer s 4).1 ∧
      (readEvent slice_time s).1.data =
        (s.data.drop (s.pos + 5)).take (event_size_of (read_integer s 4).1) ∧
      (readEvent slice_time s).1.data.length = event_size_of (read_integer s 4).1) := by
  have hget : eventTypesGet (c, t) = EventKind.unknown := by
    unfold eventTypesGet
    rw [h]
  refine ⟨hget, ?_, ?_⟩
  · intro e h1 h2
    unfold buildEvent
    rw [h1, h2, hget]
  · intro slice_time s hs
    have hf4 : (read_integer s 4).1 = bytesToNatLE ((s.data.drop s.pos).take 4) := by
      simp only [read_integer]
      rw [ByteStream.read_fst_of_le s 4 (by omega)]
    rw [hf4] at hs ⊢
    simp only [readEvent, read_integer]
    rw [ByteStream.read_fst_of_le s 4 (by omega), ByteStream.read_snd_of_le s 4 (by omega)]
    have r12 : ((⟨s.data, s.pos + 4⟩ : ByteStream).read 1).2 = ⟨s.data, s.pos + 4 + 1⟩ :=
      ByteStream.read_snd_of_le _ _ (by simp; omega)
    rw [r12]
    have rs1 : ((⟨s.data, s.pos + 4 + 1⟩ : ByteStream).read
          (event_size_of (bytesToNatLE ((s.data.drop s.pos).take 4)))).1
        = (s.data.drop (s.pos + 4 + 1)).take
            (event_size_of (bytesToNatLE ((s.data.drop s.pos).take 4))) :=
      ByteStream.read_fst_of_le _ _ (by simp; omega)
    rw [rs1]
    refine ⟨rfl, rfl, ?_⟩
    simp only [List.length_take, List.length_drop]
    omega

/-- Witness for C8: the pair (2, 0) is unmapped; header bytes
00 02 00 40 encode class 2, type 0, size 2, and the payload [5, 6] is
retained verbatim. -/
theorem C8_unknown_fallback_wit :
    eventTypesGet (2, 0) = EventKind.unknown ∧
    buildEvent (EventRec.mk 2 0 0 (some 1) 2 [5, 6]) =
      some (DecodedEvent.unknown (EventRec.mk 2 0 0 (some 1) 2 [5, 6])) ∧
    (readEvent 0 ⟨[0, 2, 0, 64, 9, 5, 6], 0⟩).1.data = [5, 6] := by
  have h := C8_unknown_fallback 2 0 (by decide)
  refine ⟨h.1, h.2.1 _ rfl rfl, ?_⟩
  exact ((h.2.2 0 ⟨[0, 2, 0, 64, 9, 5, 6], 0⟩ (by decide)).2.1).trans (by decide)

/-- Claim C1 counterexample: a primitive read whose requested byte count
exceeds the remaining bytes does NOT fail: `read_integer` of 4 bytes on a
2-byte buffer returns the little-endian value 513 of the remaining
bytes, and an event whose packed-header size (2) exceeds the single
remaining payload byte is produced from the truncated data `[1]` and is
even built successfully — no `UnexpectedEndOfData` error exists anywhere
in the code. -/
theorem C1_counterexample :
    read_integer ⟨[1, 2], 0⟩ 4 = (513, ⟨[1, 2], 2⟩) ∧
    event_size_of (read_integer (⟨[0, 2, 0, 0, 9, 1], 0⟩ : ByteStream) 4).1 = 2 ∧
    (readEvent 0 ⟨[0, 2, 0, 0, 9, 1], 0⟩).1.size = 2 ∧
    (readEvent 0 ⟨[0, 2, 0, 0, 9, 1], 0⟩).1.data = [1] ∧
    buildEvent (readEvent 0 ⟨[0, 2, 0, 0, 9, 1], 0⟩).1 =
      some (DecodedEvent.unknown (readEvent 0 ⟨[0, 2, 0, 0, 9, 1], 0⟩).1) :=
  ⟨by decide, by decide, by decide, by decide, by decide⟩

/-- Claim C1 as amended: primitive reads past the end of the buffer do
not fail; `read_integer`/`read_float` return the little-endian value of
exactly the bytes that remain (zero at end-of-data), `read_bytes` and
`read_string` return the truncated remaining bytes, and an event whose
declared size exceeds the remaining stream bytes is produced from the
truncated remaining payload. -/
theorem C1_truncated_reads (s : ByteStream) (n : Nat)
    (h1 : s.pos ≤ s.data.length) (h2 : s.data.length ≤ s.pos + n) :
    read_integer s n = (bytesToNatLE (s.data.drop s.pos), ⟨s.data, s.data.length⟩) ∧
    read_float s n = ((bytesToNatLE (s.data.drop s.pos) : ℚ), ⟨s.data, s.data.length⟩) ∧
    read_bytes s n = (s.data.drop s.pos, ⟨s.data, s.data.length⟩) ∧
    (∀ (dlen : Nat) (s2 : ByteStream), s2.pos + dlen ≤ s2.data.length →
      s2.data.length ≤ s2.pos + dlen + bytesToNatLE ((s2.data.drop s2.pos).take dlen) →
      read_string s2 dlen =
        (truncateAtNul (s2.data.drop (s2.pos + dlen)), ⟨s2.data, s2.data.length⟩)) ∧
    (∀ (slice_time : ℚ) (s2 : ByteStream), s2.pos + 5 ≤ s2.data.length →
      s2.data.length ≤ s2.pos + 5 + event_size_of (read_integer s2 4).1 →
      (readEvent slice_time s2).1.size = event_size_of (read_integer s2 4).1 ∧
      (readEvent slice_time s2).1.data = s2.data.drop (s2.pos + 5)) := by
  refine ⟨?_, ?_, ?_, ?_, ?_⟩
  · simp only [read_integer]
    rw [ByteStream.read_fst_of_ge s n h1 h2, ByteStream.read_snd_of_ge s n h1 h2]
  · simp only [read_float]
    rw [ByteStream.read_fst_of_ge s n h1 h2, ByteStream.read_snd_of_ge s n h1 h2]
  · simp only [read_bytes]
    rw [ByteStream.read_of_ge s n h1 h2]
  · intro dlen s2 hd1 hd2
    simp only [read_string]
    rw [ByteStream.read_fst_of_le s2 dlen (by omega),
      ByteStream.read_snd_of_le s2 dlen (by omega)]
    have rb1 : ((⟨s2.data, s2.pos + dlen⟩ : ByteStream).read
          (bytesToNatLE ((s2.data.drop s2.pos).take dlen))).1
        = s2.data.drop (s2.pos + dlen) :=
      ByteStream.read_fst_of_ge _ _ (by simp; omega) (by simp; omega)
    have rb2 : ((⟨s2.data, s2.pos + dlen⟩ : ByteStream).read
          (bytesToNatLE ((s2.data.drop s2.pos).take dlen))).2
        = ⟨s2.data, s2.data.length⟩ :=
      ByteStream.read_snd_of_ge _ _ (by simp; omega) (by simp; omega)
    rw [rb1, rb2]
  · intro slice_time s2 he1 he2
    have hf4 : (read_integer s2 4).1 = bytesToNatLE ((s2.data.drop s2.pos).take 4) := by
      simp only [read_integer]
      rw [ByteStream.read_fst_of_le s2 4 (by omega)]
    rw [hf4] at he2 ⊢
    simp only [readEvent, read_integer]
    rw [ByteStream.read_fst_of_le s2 4 (by omega), ByteStream.read_snd_of_le s2 4 (by omega)]
    have r12 : ((⟨s2.data, s2.pos + 4⟩ : ByteStream).read 1).2 = ⟨s2.data, s2.pos + 4 + 1⟩ :=
      ByteStream.read_snd_of_le _ _ (by simp; omega)
    rw [r12]
    have rs1 : ((⟨s2.data, s2.pos + 4 + 1⟩ : ByteStream).read
          (event_size_of (bytesToNatLE ((s2.data.drop s2.pos).take 4)))).1
        = s2.data.drop (s2.pos + 4 + 1) :=
      ByteStream.read_fst_of_ge _ _ (by simp; omega) (by simp; omega)
    rw [rs1]
    exact ⟨rfl, rfl⟩

/-- Witness for the amended C1: concrete truncated reads. -/
theorem C1_truncated_reads_wit :
    read_integer ⟨[1, 2], 0⟩ 4 = (513, ⟨[1, 2], 2⟩) ∧
    read_string ⟨[2, 7], 0⟩ 1 = ([7], ⟨[2, 7], 2⟩) ∧
    (readEvent 0 ⟨[0, 2, 0, 0, 9, 1], 0⟩).1.data = [1] := by
  have h := C1_truncated_reads ⟨[1, 2], 0⟩ 4 (by decide) (by decide)
  refine ⟨(h.1).trans (by decide), ?_, ?_⟩
  · exact (h.2.2.2.1 1 ⟨[2, 7], 0⟩ (by decide) (by decide)).trans (by decide)
  · exact ((h.2.2.2.2 0 ⟨[0, 2, 0, 0, 9, 1], 0⟩ (by decide) (by decide)).2).trans (by decide)

/-- Full characterisation of the telemetry decoder on a payload of at
least 63 bytes: every field in terms of the two packed words (bytes 0-3
and 4-7), the TC/brakes byte at offset 38 (after the 5-byte speed field
and 25 unknown bytes), and the six float words at offsets 39-62. -/
theorem decodeTelemetry_spec (etype : Nat) (p : List Nat) (hp : 63 ≤ p.length) :
    decodeTelemetry etype ⟨p, 0⟩ =
      (some {
        gear := (etype : Int) - 8
        steer_yaw := bytesToNatLE (p.take 4) &&& 127
        throttle := (bytesToNatLE (p.take 4) >>> 11) &&& 63
        engine_rpm := bytesToNatLE (p.take 4) >>> 18
        in_pit := ((bytesToNatLE (p.take 4) >>> 17) &&& 0x1) != 0
        horn := ((bytesToNatLE (p.take 4) >>> 10) &&& 0x1) != 0
        acceleration := (bytesToNatLE ((p.drop 4).take 4) >>> 24) &&& 0xFF
        following := ((bytesToNatLE ((p.drop 4).take 4) >>> 23) &&& 0x1) != 0
        warning_light := ((bytesToNatLE ((p.drop 4).take 4) >>> 22) &&& 0x1) != 0
        driver_visible := ((bytesToNatLE ((p.drop 4).take 4) >>> 21) &&& 0x1) != 0
        head_light := ((bytesToNatLE ((p.drop 4).take 4) >>> 20) &&& 0x1) != 0
        current_driver := (bytesToNatLE ((p.drop 4).take 4) >>> 18) &&& 0x03
        dpart_debris11 := ((bytesToNatLE ((p.drop 4).take 4) >>> 7) &&& 0x1) != 0
        dpart_debris10 := ((bytesToNatLE ((p.drop 4).take 4) >>> 6) &&& 0x1) != 0
        dpart_debris9 := ((bytesToNatLE ((p.drop 4).take 4) >>> 5) &&& 0x1) != 0
        dpart_debris8 := ((bytesToNatLE ((p.drop 4).take 4) >>> 4) &&& 0x1) != 0
        dpart_debris7 := ((bytesToNatLE ((p.drop 4).take 4) >>> 3) &&& 0x1) != 0
        dpart_debris6 := ((bytesToNatLE ((p.drop 4).take 4) >>> 2) &&& 0x1) != 0
        dpart_debris5 := ((bytesToNatLE ((p.drop 4).take 4) >>> 1) &&& 0x1) != 0
        dpart_debris4 := ((bytesToNatLE ((p.drop 4).take 4) >>> 0) &&& 0x1) != 0
        dpart_debris3 := ((bytesToNatLE ((p.drop 4).take 4) >>> 31) &&& 0x1) != 0
        dpart_debris2 := ((bytesToNatLE ((p.drop 4).take 4) >>> 30) &&& 0x1) != 0
        dpart_debris1 := ((bytesToNatLE ((p.drop 4).take 4) >>> 29) &&& 0x1) != 0
        dpart_debris0 := ((bytesToNatLE ((p.drop 4).take 4) >>> 28) &&& 0x1) != 0
        dpart_rwing := ((bytesToNatLE ((p.drop 4).take 4) >>> 27) &&& 0x1) != 0
        dpart_fwing := ((bytesToNatLE ((p.drop 4).take 4) >>> 26) &&& 0x1) != 0
        dpart_rr := ((bytesToNatLE ((p.drop 4).take 4) >>> 25) &&& 0x1) != 0
        dpart_rl := ((bytesToNatLE ((p.drop 4).take 4) >>> 24) &&& 0x1) != 0
        dpart_fr := ((bytesToNatLE ((p.drop 4).take 4) >>> 23) &&& 0x1) != 0
        dpart_fl := ((bytesToNatLE ((p.drop 4).take 4) >>> 22) &&& 0x1) != 0
        tc_level := bytesToNatLE ((p.drop 38).take 1) >>> 6
        brakes := bytesToNatLE ((p.drop 38).take 1) &&& 0x3F
        pos_x := ⟨bytesToNatLE ((p.drop 39).take 4)⟩
        pos_y := ⟨bytesToNatLE ((p.drop 43).take 4)⟩
        pos_z := ⟨bytesToNatLE ((p.drop 47).take 4)⟩
        rot_x := ⟨bytesToNatLE ((p.drop 51).take 4)⟩
        rot_y := ⟨bytesToNatLE ((p.drop 55).take 4)⟩
        rot_z := ⟨bytesToNatLE ((p.drop 59).take 4)⟩ }, ⟨p, 63⟩) := by
  have h1f : ((⟨p, 0⟩ : ByteStream).read 4).1 = p.take 4 :=
    ByteStream.read_fst_of_le _ _ (by simp; omega)
  have h1s : ((⟨p, 0⟩ : ByteStream).read 4).2 = ⟨p, 4⟩ :=
    ByteStream.read_snd_of_le _ _ (by simp; omega)
  have h2f : ((⟨p, 4⟩ : ByteStream).read 4).1 = (p.drop 4).take 4 :=
    ByteStream.read_fst_of_le _ _ (by simp; omega)
  have h2s : ((⟨p, 4⟩ : ByteStream).read 4).2 = ⟨p, 8⟩ :=
    ByteStream.read_snd_of_le _ _ (by simp; omega)
  have h3s : ((⟨p, 8⟩ : ByteStream).read 5).2 = ⟨p, 13⟩ :=
    ByteStream.read_snd_of_le _ _ (by simp; omega)
  have h4s : ((⟨p, 13⟩ : ByteStream).read 25).2 = ⟨p, 38⟩ :=
    ByteStream.read_snd_of_le _ _ (by simp; omega)
  have h5f : ((⟨p, 38⟩ : ByteStream).read 1).1 = (p.drop 38).take 1 :=
    ByteStream.read_fst_of_le _ _ (by simp; omega)
  have h5s : ((⟨p, 38⟩ : ByteStream).read 1).2 = ⟨p, 39⟩ :=
    ByteStream.read_snd_of_le _ _ (by simp; omega)
  have h6f : ((⟨p, 39⟩ : ByteStream).read 4).1 = (p.drop 39).take 4 :=
    ByteStream.read_fst_of_le _ _ (by simp; omega)
  have h6s : ((⟨p, 39⟩ : ByteStream).read 4).2 = ⟨p, 43⟩ :=
    ByteStream.read_snd_of_le _ _ (by simp; omega)
  have h7f : ((⟨p, 43⟩ : ByteStream).read 4).1 = (p.drop 43).take 4 :=
    ByteStream.read_fst_of_le _ _ (by simp; omega)
  have h7s : ((⟨p, 43⟩ : ByteStream).read 4).2 = ⟨p, 47⟩ :=
    ByteStream.read_snd_of_le _ _ (by simp; omega)
  have h8f : ((⟨p, 47⟩ : ByteStream).read 4).1 = (p.drop 47).take 4 :=
    ByteStream.read_fst_of_le _ _ (by simp; omega)
  have h8s : ((⟨p, 47⟩ : ByteStream).read 4).2 = ⟨p, 51⟩ :=
    ByteStream.read_snd_of_le _ _ (by simp; omega)
  have h9f : ((⟨p, 51⟩ : ByteStream).read 4).1 = (p.drop 51).take 4 :=
    ByteStream.read_fst_of_le _ _ (by simp; omega)
  have h9s : ((⟨p, 51⟩ : ByteStream).read 4).2 = ⟨p, 55⟩ :=
    ByteStream.read_snd_of_le _ _ (by simp; omega)
  have h10f : ((⟨p, 55⟩ : ByteStream).read 4).1 = (p.drop 55).take 4 :=
    ByteStream.read_fst_of_le _ _ (by simp; omega)
  have h10s : ((⟨p, 55⟩ : ByteStream).read 4).2 = ⟨p, 59⟩ :=
    ByteStream.read_snd_of_le _ _ (by simp; omega)
  have h11f : ((⟨p, 59⟩ : ByteStream).read 4).1 = (p.drop 59).take 4 :=
    ByteStream.read_fst_of_le _ _ (by simp; omega)
  have h11s : ((⟨p, 59⟩ : ByteStream).read 4).2 = ⟨p, 63⟩ :=
    ByteStream.read_snd_of_le _ _ (by simp; omega)
  have hlen : ∀ k : Nat, k + 4 ≤ 63 → ((p.drop k).take 4).length = 4 := by
    intro k hk
    simp only [List.length_take, List.length_drop]
    omega
  simp only [decodeTelemetry, read_integer, read_float2]
  rw [h1f, h1s, h2f, h2s, h3s, h4s, h5f, h5s, h6f, h6s, h7f, h7s, h8f, h8s,
    h9f, h9s, h10f, h10s, h11f, h11s]
  rw [if_pos (hlen 39 (by omega)), if_pos (hlen 43 (by omega)),
    if_pos (hlen 47 (by omega)), if_pos (hlen 51 (by omega)),
    if_pos (hlen 55 (by omega)), if_pos (hlen 59 (by omega))]

/-- Claim C3: the telemetry decoder unpacks the first packed word into
steer/yaw (bits 0-6), horn (bit 10), throttle (bits 11-16), in-pit (bit
17) and engine RPM (bits 18+); the second packed word into the
acceleration byte (bits 24-31), following (23), warning-light (22),
driver-visible (21), head-light (20), current-driver (18-19) and exactly
the twelve debris/detachable-part flags `dpart_debris0..11`; skips the
5-byte speed field and 25 unknown bytes; splits the byte at offset 38
into a 2-bit TC level and 6-bit brakes value; and reads the six
position/rotation floats at offsets 39-62 as raw IEEE-754 little-endian
bit patterns. -/
theorem C3_telemetry_layout (etype : Nat) (p : List Nat) (hp : 63 ≤ p.length) :
    decodeTelemetry etype ⟨p, 0⟩ =
      (some {
        gear := (etype : Int) - 8
        steer_yaw := bytesToNatLE (p.take 4) &&& 127
        throttle := (bytesToNatLE (p.take 4) >>> 11) &&& 63
        engine_rpm := bytesToNatLE (p.take 4) >>> 18
        in_pit := ((bytesToNatLE (p.take 4) >>> 17) &&& 0x1) != 0
        horn := ((bytesToNatLE (p.take 4) >>> 10) &&& 0x1) != 0
        acceleration := (bytesToNatLE ((p.drop 4).take 4) >>> 24) &&& 0xFF
        following := ((bytesToNatLE ((p.drop 4).take 4) >>> 23) &&& 0x1) != 0
        warning_light := ((bytesToNatLE ((p.drop 4).take 4) >>> 22) &&& 0x1) != 0
        driver_visible := ((bytesToNatLE ((p.drop 4).take 4) >>> 21) &&& 0x1) != 0
        head_light := ((bytesToNatLE ((p.drop 4).take 4) >>> 20) &&& 0x1) != 0
        current_driver := (bytesToNatLE ((p.drop 4).take 4) >>> 18) &&& 0x03
        dpart_debris11 := ((bytesToNatLE ((p.drop 4).take 4) >>> 7) &&& 0x1) != 0
        dpart_debris10 := ((bytesToNatLE ((p.drop 4).take 4) >>> 6) &&& 0x1) != 0
        dpart_debris9 := ((bytesToNatLE ((p.drop 4).take 4) >>> 5) &&& 0x1) != 0
        dpart_debris8 := ((bytesToNatLE ((p.drop 4).take 4) >>> 4) &&& 0x1) != 0
        dpart_debris7 := ((bytesToNatLE ((p.drop 4).take 4) >>> 3) &&& 0x1) != 0
        dpart_debris6 := ((bytesToNatLE ((p.drop 4).take 4) >>> 2) &&& 0x1) != 0
        dpart_debris5 := ((bytesToNatLE ((p.drop 4).take 4) >>> 1) &&& 0x1) != 0
        dpart_debris4 := ((bytesToNatLE ((p.drop 4).take 4) >>> 0) &&& 0x1) != 0
        dpart_debris3 := ((bytesToNatLE ((p.drop 4).take 4) >>> 31) &&& 0x1) != 0
        dpart_debris2 := ((bytesToNatLE ((p.drop 4).take 4) >>> 30) &&& 0x1) != 0
        dpart_debris1 := ((bytesToNatLE ((p.drop 4).take 4) >>> 29) &&& 0x1) != 0
        dpart_debris0 := ((bytesToNatLE ((p.drop 4).take 4) >>> 28) &&& 0x1) != 0
        dpart_rwing := ((bytesToNatLE ((p.drop 4).take 4) >>> 27) &&& 0x1) != 0
        dpart_fwing := ((bytesToNatLE ((p.drop 4).take 4) >>> 26) &&& 0x1) != 0
        dpart_rr := ((bytesToNatLE ((p.drop 4).take 4) >>> 25) &&& 0x1) != 0
        dpart_rl := ((bytesToNatLE ((p.drop 4).take 4) >>> 24) &&& 0x1) != 0
        dpart_fr := ((bytesToNatLE ((p.drop 4).take 4) >>> 23) &&& 0x1) != 0
        dpart_fl := ((bytesToNatLE ((p.drop 4).take 4) >>> 22) &&& 0x1) != 0
        tc_level := bytesToNatLE ((p.drop 38).take 1) >>> 6
        brakes := bytesToNatLE ((p.drop 38).take 1) &&& 0x3F
        pos_x := ⟨bytesToNatLE ((p.drop 39).take 4)⟩
        pos_y := ⟨bytesToNatLE ((p.drop 43).take 4)⟩
        pos_z := ⟨bytesToNatLE ((p.drop 47).take 4)⟩
        rot_x := ⟨bytesToNatLE ((p.drop 51).take 4)⟩
        rot_y := ⟨bytesToNatLE ((p.drop 55).take 4)⟩
        rot_z := ⟨bytesToNatLE ((p.drop 59).take 4)⟩ }, ⟨p, 63⟩) :=
  decodeTelemetry_spec etype p hp

/-- Witness for C3: the all-zero 63-byte payload with event type 9. -/
theorem C3_telemetry_layout_wit :
    decodeTelemetry 9 ⟨List.replicate 63 0, 0⟩ =
      (some (TelemetryData.mk 1 0 0 0 false false 0 false false false false 0
        false false false false false false false false false false false false
        false false false false false false 0 0 ⟨0⟩ ⟨0⟩ ⟨0⟩ ⟨0⟩ ⟨0⟩ ⟨0⟩),
       ⟨List.replicate 63 0, 63⟩) :=
  (C3_telemetry_layout 9 (List.replicate 63 0) (by decide)).trans (by decide)

/-- Claim C5: the dispatch table routes exactly class 0 with types 7-16
to the telemetry decoder; every decoded telemetry event has gear equal to
its type minus 8, hence gear between -1 and 8. -/
theorem C5_gear_range (c t : Nat) :
    (eventTypesGet (c, t) = EventKind.telemetry ↔ c = 0 ∧ 7 ≤ t ∧ t ≤ 16) ∧
    (∀ s : ByteStream, ((decodeTelemetry t s).1).elim True
      (fun td => td.gear = (t : Int) - 8)) ∧
    (7 ≤ t → t ≤ 16 → ∀ s : ByteStream, ((decodeTelemetry t s).1).elim True
      (fun td => -1 ≤ td.gear ∧ td.gear ≤ 8)) := by
  have key : ∀ s : ByteStream, ∀ td, (decodeTelemetry t s).1 = some td →
      td.gear = (t : Int) - 8 := by
    intro s td hx
    simp only [decodeTelemetry] at hx
    split at hx
    · simp only [Option.some.injEq] at hx
      rw [← hx]
    · exact absurd hx (by simp)
  refine ⟨eventTypesGet_telemetry_iff c t, ?_, ?_⟩
  · intro s
    rcases hx : (decodeTelemetry t s).1 with _ | td
    · exact trivial
    · exact key s td hx
  · intro h7 h16 s
    rcases hx : (decodeTelemetry t s).1 with _ | td
    · exact trivial
    · have := key s td hx
      simp only [Option.elim]
      omega

/-- Witness for C5: the pair (0, 9) is telemetry, and decoding type 9
over the all-zero payload yields gear 1 within [-1, 8]. -/
theorem C5_gear_range_wit :
    eventTypesGet (0, 9) = EventKind.telemetry ∧
    ((decodeTelemetry 9 ⟨List.replicate 63 0, 0⟩).1).elim True
      (fun td => td.gear = (9 : Int) - 8) ∧
    ((decodeTelemetry 9 ⟨List.replicate 63 0, 0⟩).1).elim True
      (fun td => -1 ≤ td.gear ∧ td.gear ≤ 8) :=
  ⟨(C5_gear_range 0 9).1.mpr (by decide),
   (C5_gear_range 0 9).2.1 ⟨List.replicate 63 0, 0⟩,
   (C5_gear_range 0 9).2.2 (by decide) (by decide) ⟨List.replicate 63 0, 0⟩⟩

/-- Claim C10: in every decoded telemetry record, the front-left part
flag equals the warning-light flag (both bit 22 of the second word), the
front-right part flag equals the following flag (both bit 23), and the
rear-left / rear-right part flags equal bits 0 and 1 of the acceleration
byte (bits 24 and 25 of the second word). -/
theorem C10_dpart_aliases (etype : Nat) (p : List Nat) (hp : 63 ≤ p.length) :
    ∀ td s', decodeTelemetry etype ⟨p, 0⟩ = (some td, s') →
      td.dpart_fl = td.warning_light ∧
      td.dpart_fr = td.following ∧
      td.dpart_rl = (((td.acceleration >>> 0) &&& 1) != 0) ∧
      td.dpart_rr = (((td.acceleration >>> 1) &&& 1) != 0) := by
  intro td s' h
  rw [decodeTelemetry_spec etype p hp] at h
  simp only [Prod.mk.injEq, Option.some.injEq] at h
  obtain ⟨hrec, -⟩ := h
  subst hrec
  refine ⟨rfl, rfl, ?_, ?_⟩
  · have hy : ∀ y : Nat, ((y &&& 255) >>> 0) &&& 1 = y &&& 1 := by
      intro y
      rw [Nat.shiftRight_zero, Nat.and_assoc]
      norm_num
    rw [hy]
  · have hz : ∀ y : Nat, ((y &&& 255) >>> 1) &&& 1 = (y >>> 1) &&& 1 := by
      intro y
      have e1 : y &&& 255 = y % 256 := by
        have h8 : (255 : Nat) = 2 ^ 8 - 1 := by norm_num
        rw [h8, Nat.and_pow_two_sub_one_eq_mod]
      have e2 : ∀ z : Nat, z &&& 1 = z % 2 := by
        intro z
        have h1 : (1 : Nat) = 2 ^ 1 - 1 := by norm_num
        conv_lhs => rw [h1]
        rw [Nat.and_pow_two_sub_one_eq_mod]
      rw [e1, e2, e2, Nat.shiftRight_eq_div_pow, Nat.shiftRight_eq_div_pow]
      omega
    have h25 : bytesToNatLE ((p.drop 4).take 4) >>> 25
        = (bytesToNatLE ((p.drop 4).take 4) >>> 24) >>> 1 := by
      rw [← Nat.shiftRight_add]
    rw [h25, hz]

/-- Witness for C10: the all-zero payload. -/
theorem C10_dpart_aliases_wit :
    false = false ∧ false = false ∧
    false = ((((0 : Nat) >>> 0) &&& 1) != 0) ∧
    false = ((((0 : Nat) >>> 1) &&& 1) != 0) :=
  C10_dpart_aliases 9 (List.replicate 63 0) (by decide)
    (TelemetryData.mk 1 0 0 0 false false 0 false false false false 0
      false false false false false false false false false false false false
      false false false false false false 0 0 ⟨0⟩ ⟨0⟩ ⟨0⟩ ⟨0⟩ ⟨0⟩ ⟨0⟩)
    ⟨List.replicate 63 0, 63⟩ (by decide)

/-- Claim C9: the four summary fields of `ReplayInfo` are zero as
constructed by the header decoder, are set by `_read_slices_header` to
exactly the four values read there (all other fields unchanged), and
iterating the event sequence leaves the `info` member untouched. -/
theorem C9_two_phase :
    (∀ (s : ByteStream) (info : ReplayInfo) (s' : ByteStream),
      _read_replay_info s = some (info, s') →
      info.slice_count = 0 ∧ info.event_count_total = 0 ∧
      info.time_start = 0 ∧ info.time_end = 0) ∧
    (∀ (info : ReplayInfo) (s : ByteStream),
      (_read_slices_header info s).1.slice_count = (read_integer s 4).1 ∧
      (_read_slices_header info s).1.event_count_total
        = (read_integer (read_integer s 4).2 4).1 ∧
      (_read_slices_header info s).1.time_start
        = (read_float (read_integer (read_integer s 4).2 4).2 4).1 ∧
      (_read_slices_header info s).1.time_end
        = (read_float (read_float (read_integer (read_integer s 4).2 4).2 4).2 4).1 ∧
      (_read_slices_header info s).1.version = info.version ∧
      (_read_slices_header info s).1.rfm = info.rfm ∧
      (_read_slices_header info s).1.mod_info = info.mod_info ∧
      (_read_slices_header info s).1.scn_filename = info.scn_filename ∧
      (_read_slices_header info s).1.aiw_filename = info.aiw_filename ∧
      (_read_slices_header info s).1.mod_name = info.mod_name ∧
      (_read_slices_header info s).1.mod_version = info.mod_version ∧
      (_read_slices_header info s).1.mod_uid = info.mod_uid ∧
      (_read_slices_header info s).1.track_path = info.track_path ∧
      (_read_slices_header info s).1.session_type = info.session_type ∧
      (_read_slices_header info s).1.is_private_session = info.is_private_session) ∧
    (∀ r : ReplayState, (events r).2.info = r.info) := by
  refine ⟨?_, ?_, ?_⟩
  · intro s info s' h
    unfold _read_replay_info at h
    dsimp only [] at h
    split at h
    · exact absurd h (by simp)
    · simp only [Option.some.injEq, Prod.mk.injEq] at h
      obtain ⟨hrec, -⟩ := h
      rw [← hrec]
      exact ⟨rfl, rfl, rfl, rfl⟩
  · intro info s
    exact ⟨rfl, rfl, rfl, rfl, rfl, rfl, rfl, rfl, rfl, rfl, rfl, rfl, rfl, rfl, rfl⟩
  · intro r
    rfl

/-- Witness for C9: the empty file decodes to a `ReplayInfo` whose four
summary fields are zero. -/
theorem C9_two_phase_wit :
    (ReplayInfo.mk [] [] [] 0 0 0 0 [] [] [] [] [] []
      SessionType.TEST_DAY false).slice_count = 0 ∧
    (ReplayInfo.mk [] [] [] 0 0 0 0 [] [] [] [] [] []
      SessionType.TEST_DAY false).event_count_total = 0 ∧
    (ReplayInfo.mk [] [] [] 0 0 0 0 [] [] [] [] [] []
      SessionType.TEST_DAY false).time_start = 0 ∧
    (ReplayInfo.mk [] [] [] 0 0 0 0 [] [] [] [] [] []
      SessionType.TEST_DAY false).time_end = 0 :=
  C9_two_phase.1 ⟨[], 0⟩
    (ReplayInfo.mk [] [] [] 0 0 0 0 [] [] [] [] [] [] SessionType.TEST_DAY false)
    ⟨[], 0⟩ (by decide)

end RF2
